import Mathlib

/-!
Verification of the forward-simulation module of the hillslope surrogate
repository (`src/modules/forward_simulation.py`).

Numbers are modelled exactly as rationals (`ℚ`).  Fallible numpy/Python
operations are modelled with `Except PyErr`.  The two derivative predictors
(`nnetwork`, `rforest`) are modelled as pure functions `ℚ → ℚ → ℚ → ℚ × ℚ`
taking `(B, D, g)` and returning the slope pair `(dB/dt, dD/dt)`, matching
the `predict` calls on lines 49-50 of the source (a single input row, with
the result `squeeze`d to its two components).

The source fixes `dt = 0.5` (line 16) and reads `cfg.max_years` and
`cfg.freq_progress` from a configuration module that is not part of the
source tree; these three quantities appear here as explicit parameters
`dt`, `max_years`, `freq_progress` of the embedded functions.
-/

/-- Python exception kinds that the embedded code can raise, together with
the error names used by the specification's error taxonomy (the latter are
never produced by the embedded code; they exist so that statements about
the specified error can be compared with the actual one). -/
inductive PyErr where
  | indexError : PyErr
  | zeroDivisionError : PyErr
  | valueError : PyErr
  | emptyTrajectoryError : PyErr
  | invalidParameterError : PyErr
deriving DecidableEq, Repr, Inhabited

/-- One time-indexed sample of the ground-truth trajectory: biomass `B`,
soil depth `D`, grazing pressure `g` and the jump flag, i.e. one row of
`sim_data` as unpacked on line 11 of the source. -/
structure Sample where
  B : ℚ
  D : ℚ
  g : ℚ
  jump : Bool
deriving DecidableEq, Repr, Inhabited

/-- A derivative predictor: `(B, D, g) ↦ (dB/dt, dD/dt)`. -/
abbrev Predictor := ℚ → ℚ → ℚ → ℚ × ℚ

/-- `n_years = min(cfg.max_years, dt*len(B_true))` (line 17). -/
def n_years_of (dt max_years : ℚ) (L : ℕ) : ℚ :=
  min max_years (dt * L)

/-- `n_steps = int(n_years/dt)` (line 18).  Python `int()` truncates toward
zero; under the positivity hypotheses of the claims the quotient is
nonnegative, where truncation agrees with `Int.toNat ∘ Int.floor`. -/
def n_steps_of (dt max_years : ℚ) (L : ℕ) : ℕ :=
  (Int.floor (n_years_of dt max_years L / dt)).toNat

/-- `steps_progress = int(n_steps*cfg.freq_progress)` (line 19). -/
def steps_progress_of (freq_progress : ℚ) (n_steps : ℕ) : ℕ :=
  (Int.floor ((n_steps : ℚ) * freq_progress)).toNat

/-- The four state-array entries at one step index: `B_for[i]`, `D_for[i]`,
`B_nn[i]` and `D_nn[i]` after the loop of lines 34-56 has finished. -/
structure StepState where
  B_for : ℚ
  D_for : ℚ
  B_nn : ℚ
  D_nn : ℚ
deriving DecidableEq, Repr, Inhabited

/-- The final value of the four state arrays at index `i`.  Index `0` keeps
the initialisation `Bo = B_true[0]`, `Do = D_true[0]` (lines 14-15, 22-26);
index `i ≥ 1` is written exactly once, by iteration `step = i` of the loop:
either the jump override (lines 41-46) or the clamped Euler update from the
already-final values at index `i-1` (lines 48-56). -/
def simState (dt : ℚ) (nnetwork rforest : Predictor) (sim_data : List Sample) :
    ℕ → StepState
  | 0 =>
      let s0 := sim_data.getD 0 default
      ⟨s0.B, s0.D, s0.B, s0.D⟩
  | i + 1 =>
      let s := sim_data.getD (i + 1) default
      if s.jump then
        ⟨s.B, s.D, s.B, s.D⟩
      else
        let p := simState dt nnetwork rforest sim_data i
        let gp := (sim_data.getD i default).g
        let nn_slopes := nnetwork p.B_nn p.D_nn gp
        let for_slopes := rforest p.B_for p.D_for gp
        ⟨max (p.B_for + for_slopes.1 * dt) 0,
         max (p.D_for + for_slopes.2 * dt) 0,
         max (p.B_nn + nn_slopes.1 * dt) 0,
         max (p.D_nn + nn_slopes.2 * dt) 0⟩

/-- `np.linspace(start, stop, num)`: `num` evenly spaced points from
`start` to `stop` inclusive (line 59).  For `num = 1` numpy returns
`[start]`, which the formula below also yields since `x / 0 = 0` in `ℚ`. -/
def linspace (start stop : ℚ) (num : ℕ) : List ℚ :=
  (List.range num).map
    (fun (i : ℕ) => start + (i : ℚ) * (stop - start) / ((num : ℚ) - 1))

/-- `np.mean` of a list (division by zero for the empty list gives `0`). -/
def npMean (xs : List ℚ) : ℚ :=
  xs.sum / xs.length

/-- The (co)variance entries of `np.cov(x, y)` as used by `np.corrcoef`
(default `ddof = 1`): `Σ (xᵢ - x̄)(yᵢ - ȳ) / (n - 1)`. -/
def npCov (xs ys : List ℚ) : ℚ :=
  (((xs.zip ys).map (fun p => (p.1 - npMean xs) * (p.2 - npMean ys))).sum) /
    ((xs.length : ℚ) - 1)

/-- The `[0, 1]` entry of `np.corrcoef(x, y)` (lines 107-108), kept as exact
rational data.  numpy reports the float `cov / (√var_x · √var_y)`
`= cov / √varProd`; that float is well-defined exactly when the denominator
is nonzero, and is NaN when `varProd = 0` (then `cov = 0` as well, and the
division is IEEE `0/0`).  Since the claims only constrain NaN-ness, the
pair `(cov, varProd)` determines everything needed while staying exact. -/
structure NpCorr where
  cov : ℚ
  varProd : ℚ
deriving DecidableEq, Repr, Inhabited

/-- Whether the reported correlation coefficient is NaN: numpy's division
`cov / √varProd` produces NaN exactly when the variance product vanishes. -/
def NpCorr.isNan (c : NpCorr) : Bool :=
  c.varProd == 0

/-- `np.corrcoef(x, y)[0, 1]` in the exact representation above. -/
def corrcoef01 (xs ys : List ℚ) : NpCorr :=
  ⟨npCov xs ys, npCov xs xs * npCov ys ys⟩

/-- The results of one forward-simulation run: the eight arrays saved on
lines 95-104, the loop steps at which the progress message of lines 37-38
printed, and the four Pearson coefficients of lines 107-108. -/
structure SimResult where
  t : List ℚ
  B_true : List ℚ
  D_true : List ℚ
  g : List ℚ
  B_for : List ℚ
  D_for : List ℚ
  B_nn : List ℚ
  D_nn : List ℚ
  progress_steps : List ℕ
  r_for : NpCorr × NpCorr
  r_nn : NpCorr × NpCorr
deriving DecidableEq, Repr, Inhabited

/-- The simulation outputs of `forward_simulation` (lines 13-59, 106-108)
in the successful case: ground truth truncated to `n_steps` (lines 29-31),
the four state arrays as final values of the loop of lines 34-56, the time
vector of line 59, the progress steps of lines 36-38 (the loop runs over
`range(1, n_steps)`), and the correlations of lines 107-108. -/
def mkResult (dt max_years freq_progress : ℚ) (nnetwork rforest : Predictor)
    (sim_data : List Sample) : SimResult :=
  let n_years := n_years_of dt max_years sim_data.length
  let n_steps := n_steps_of dt max_years sim_data.length
  let steps_progress := steps_progress_of freq_progress n_steps
  let B_true := (sim_data.take n_steps).map Sample.B
  let D_true := (sim_data.take n_steps).map Sample.D
  let g := (sim_data.take n_steps).map Sample.g
  let B_for := (List.range n_steps).map
    (fun i => (simState dt nnetwork rforest sim_data i).B_for)
  let D_for := (List.range n_steps).map
    (fun i => (simState dt nnetwork rforest sim_data i).D_for)
  let B_nn := (List.range n_steps).map
    (fun i => (simState dt nnetwork rforest sim_data i).B_nn)
  let D_nn := (List.range n_steps).map
    (fun i => (simState dt nnetwork rforest sim_data i).D_nn)
  { t := linspace 0 n_years n_steps
    B_true := B_true
    D_true := D_true
    g := g
    B_for := B_for
    D_for := D_for
    B_nn := B_nn
    D_nn := D_nn
    progress_steps := (List.range' 1 (n_steps - 1)).filter
      (fun step => step % steps_progress == 0)
    r_for := (corrcoef01 B_true B_for, corrcoef01 D_true D_for)
    r_nn := (corrcoef01 B_true B_nn, corrcoef01 D_true D_nn) }

/-- `forward_simulation` (lines 7-116), modulo plotting and file writing.
The two failure points of the numerical part are modelled explicitly:
`B_true[0]` on an empty trajectory raises `IndexError` (line 14), and
`step % steps_progress` raises `ZeroDivisionError` at the first loop
iteration when `steps_progress == 0` and the loop body runs, i.e. when
`n_steps ≥ 2` (line 37).  When the run aborts this way nothing is saved
(the plot and csv writes of lines 62-104 come after the loop), which the
`Except.error` result models. -/
def forward_simulation (dt max_years freq_progress : ℚ)
    (nnetwork rforest : Predictor) (sim_data : List Sample) :
    Except PyErr SimResult :=
  if sim_data.length = 0 then
    .error .indexError
  else
    let n_steps := n_steps_of dt max_years sim_data.length
    if 2 ≤ n_steps ∧ steps_progress_of freq_progress n_steps = 0 then
      .error .zeroDivisionError
    else
      .ok (mkResult dt max_years freq_progress nnetwork rforest sim_data)

/-- Insert a rational into an ascending-sorted list. -/
def insertSorted (x : ℚ) : List ℚ → List ℚ
  | [] => [x]
  | y :: ys => if x ≤ y then x :: y :: ys else y :: insertSorted x ys

/-- Ascending sort, used to model `np.median`. -/
def sortAsc (xs : List ℚ) : List ℚ :=
  xs.foldr insertSorted []

/-- `np.median`: middle element of the sorted data for odd length, average
of the two middle elements for even length. -/
def npMedian (xs : List ℚ) : ℚ :=
  let s := sortAsc xs
  if xs.length % 2 = 1 then s.getD (xs.length / 2) 0
  else (s.getD (xs.length / 2 - 1) 0 + s.getD (xs.length / 2) 0) / 2

/-- The `k`-th 26-row block of a column (line 142's `reshape(-1, 26, 3)`). -/
def block26 (xs : List ℚ) (k : ℕ) : List ℚ :=
  (xs.drop (26 * k)).take 26

/-- Python's `xs[::26]`: every 26th element, `ceil(len(xs)/26)` of them. -/
def every26 (xs : List Bool) : List Bool :=
  (List.range ((xs.length + 25) / 26)).map (fun k => xs.getD (26 * k) false)

/-- `preprocess_fwd_sim_data` (lines 120-151), taking as inputs the values
of the local variables `biomass`, `soil_depth`, `grazing_pressure` after
the file loads of lines 127-129 (column 1, rows `25:-1`, grazing already
scaled by `24*365`), and `jumps_file` as the flag column when
`statevars_jumped.tss` exists (`none` models `FileNotFoundError`, handled
on lines 134-136 by an all-false default plus a printed warning).

The numpy failure points are modelled explicitly:
* `np.column_stack` (line 139) raises `ValueError` on mismatched lengths;
* `reshape(-1, 26, 3)` (line 142) raises `ValueError` when the row count
  is not a multiple of 26;
* `np.apply_along_axis` (line 143) raises `ValueError` when there are zero
  blocks to iterate over;
* `np.column_stack` (line 147) raises `ValueError` when the raw columns
  and the strided `jumps` disagree in length.

Note that line 147 stacks the raw, un-pooled `biomass`, `soil_depth` and
`grazing_pressure` with the strided `jumps`: the pooled block medians
`X_sim` of lines 142-143 are computed and then discarded. -/
def preprocess_fwd_sim_data (biomass soil_depth grazing_pressure : List ℚ)
    (jumps_file : Option (List Bool)) : Except PyErr (List Sample) :=
  let jumps := jumps_file.getD (List.replicate biomass.length false)
  if soil_depth.length ≠ biomass.length ∨
      grazing_pressure.length ≠ biomass.length then
    .error .valueError
  else if biomass.length % 26 ≠ 0 then
    .error .valueError
  else if biomass.length / 26 = 0 then
    .error .valueError
  else
    let X_sim := (List.range (biomass.length / 26)).map (fun k =>
      (npMedian (block26 biomass k), npMedian (block26 soil_depth k),
       npMedian (block26 grazing_pressure k)))
    let jumps26 := every26 jumps
    if jumps26.length ≠ biomass.length then
      .error .valueError
    else
      .ok (((biomass.zip soil_depth).zip
        (grazing_pressure.zip jumps26)).map
          (fun p => ⟨p.1.1, p.1.2, p.2.1, p.2.2⟩))

/-- The block-reduced trajectory that the specification says the loader
returns.  Modelled from the spec: "supplies an aligned, fixed-cadence
record of (B, D, g, jump-flag) derived from raw observational time series,
already block-reduced to a uniform time step" — the per-block medians
`X_sim` of lines 142-143 aligned with the strided `jumps` of line 144;
the source computes these but does not return them. -/
def pooled_trajectory (biomass soil_depth grazing_pressure : List ℚ)
    (jumps_file : Option (List Bool)) : List Sample :=
  let jumps := jumps_file.getD (List.replicate biomass.length false)
  let jumps26 := every26 jumps
  (List.range (biomass.length / 26)).map (fun k =>
    ⟨npMedian (block26 biomass k), npMedian (block26 soil_depth k),
     npMedian (block26 grazing_pressure k), jumps26.getD k false⟩)

/-- The zero predictor, used for concrete runs in witnesses. -/
def pZero : Predictor := fun _ _ _ => (0, 0)

/-- A second spelling of the zero predictor, extensionally but not
syntactically equal to `pZero`. -/
def pZeroAlt : Predictor := fun b _ _ => (0 * b, 0)

/-- A concrete two-sample jump-free trajectory used in witnesses and
counterexamples. -/
def dataTwo : List Sample :=
  [⟨1, 2, 3, false⟩, ⟨4, 5, 6, false⟩]

/-- A concrete two-sample trajectory whose second step is a jump. -/
def dataJump : List Sample :=
  [⟨1, 2, 3, false⟩, ⟨4, 5, 6, true⟩]

example : n_steps_of (1/2) 100 dataTwo.length = 2 := by
  norm_num [n_steps_of, n_years_of, dataTwo]
  decide

example : steps_progress_of (1/2) 2 = 1 := by
  norm_num [steps_progress_of]

example : steps_progress_of (1/4) 2 = 0 := by
  norm_num [steps_progress_of]

example :
    simState 1 (fun _ _ _ => (1/5, -(1/10))) (fun _ _ _ => (1/5, -(1/10)))
      [⟨10, 5, 1, false⟩, ⟨51/5, 5, 1, false⟩, ⟨3, 5, 1, true⟩] 1 =
      ⟨51/5, 49/10, 51/5, 49/10⟩ := by
  norm_num [simState]

example :
    simState 1 (fun _ _ _ => (1/5, -(1/10))) (fun _ _ _ => (1/5, -(1/10)))
      [⟨10, 5, 1, false⟩, ⟨51/5, 5, 1, false⟩, ⟨3, 5, 1, true⟩] 2 =
      ⟨3, 5, 3, 5⟩ := by
  norm_num [simState]

/-! ### Helper lemmas -/

theorem getD_map_range (f : ℕ → ℚ) {n i : ℕ} (h : i < n) :
    ((List.range n).map f).getD i 0 = f i := by
  rw [List.getD_eq_getElem?_getD, List.getElem?_map, List.getElem?_range h]
  rfl

theorem forward_simulation_ok_inv {dt max_years freq_progress : ℚ}
    {nnetwork rforest : Predictor} {sim_data : List Sample} {r : SimResult}
    (h : forward_simulation dt max_years freq_progress nnetwork rforest
      sim_data = .ok r) :
    sim_data.length ≠ 0 ∧
    ¬(2 ≤ n_steps_of dt max_years sim_data.length ∧
      steps_progress_of freq_progress
        (n_steps_of dt max_years sim_data.length) = 0) ∧
    r = mkResult dt max_years freq_progress nnetwork rforest sim_data := by
  simp only [forward_simulation] at h
  split at h
  · exact absurd h (by simp)
  · split at h
    · exact absurd h (by simp)
    · rename_i h1 h2
      refine ⟨h1, h2, ?_⟩
      injection h with h
      exact h.symm

theorem result_arrays_getD {dt max_years freq_progress : ℚ}
    {nnetwork rforest : Predictor} {sim_data : List Sample} {r : SimResult}
    (h : forward_simulation dt max_years freq_progress nnetwork rforest
      sim_data = .ok r)
    {i : ℕ} (hi : i < n_steps_of dt max_years sim_data.length) :
    r.B_for.getD i 0 = (simState dt nnetwork rforest sim_data i).B_for ∧
    r.D_for.getD i 0 = (simState dt nnetwork rforest sim_data i).D_for ∧
    r.B_nn.getD i 0 = (simState dt nnetwork rforest sim_data i).B_nn ∧
    r.D_nn.getD i 0 = (simState dt nnetwork rforest sim_data i).D_nn := by
  obtain ⟨-, -, rfl⟩ := forward_simulation_ok_inv h
  refine ⟨?_, ?_, ?_, ?_⟩ <;>
    simp only [mkResult] <;>
    exact getD_map_range _ hi

theorem n_steps_le_length (dt max_years : ℚ) (L : ℕ) (hdt : 0 < dt) :
    n_steps_of dt max_years L ≤ L := by
  unfold n_steps_of n_years_of
  have h1 : min max_years (dt * L) / dt ≤ (L : ℚ) := by
    rw [div_le_iff hdt]
    calc min max_years (dt * L) ≤ dt * L := min_le_right _ _
    _ = (L : ℚ) * dt := mul_comm _ _
  have h2 : Int.floor (min max_years (dt * L) / dt) ≤ (L : ℤ) := by
    have := Int.floor_le_floor h1
    rwa [Int.floor_natCast] at this
  exact Int.toNat_le.mpr h2

theorem getD_sample_nonneg {sim_data : List Sample}
    (h : ∀ s ∈ sim_data, 0 ≤ s.B ∧ 0 ≤ s.D) (k : ℕ) :
    0 ≤ (sim_data.getD k default).B ∧ 0 ≤ (sim_data.getD k default).D := by
  by_cases hk : k < sim_data.length
  · rw [List.getD_eq_getElem?_getD, List.getElem?_eq_getElem hk]
    exact h _ (List.getElem_mem hk)
  · rw [List.getD_eq_default _ _ (le_of_not_lt hk)]
    exact ⟨le_refl 0, le_refl 0⟩

theorem simState_nonneg (dt : ℚ) (nnetwork rforest : Predictor)
    {sim_data : List Sample} (h : ∀ s ∈ sim_data, 0 ≤ s.B ∧ 0 ≤ s.D) :
    ∀ i, 0 ≤ (simState dt nnetwork rforest sim_data i).B_for ∧
      0 ≤ (simState dt nnetwork rforest sim_data i).D_for ∧
      0 ≤ (simState dt nnetwork rforest sim_data i).B_nn ∧
      0 ≤ (simState dt nnetwork rforest sim_data i).D_nn := by
  intro i
  induction i with
  | zero =>
      obtain ⟨hB, hD⟩ := getD_sample_nonneg h 0
      exact ⟨hB, hD, hB, hD⟩
  | succ n ih =>
      by_cases hj : (sim_data.getD (n + 1) default).jump
      · obtain ⟨hB, hD⟩ := getD_sample_nonneg h (n + 1)
        simp only [simState, hj, if_true]
        exact ⟨hB, hD, hB, hD⟩
      · simp only [simState, hj, if_false, Bool.false_eq_true]
        exact ⟨le_max_right _ _, le_max_right _ _,
          le_max_right _ _, le_max_right _ _⟩

/-! ### The claims -/

/-- C1: at every step `i ∈ 1..N-1` whose ground-truth jump flag is false,
each simulated state equals `max(previous_state + slope*time_step, 0)`
componentwise, where each predictor is queried with its own previous state
`(B[i-1], D[i-1])` and the grazing pressure `g[i-1]`.  Stated for every
time step `dt`, which covers the code's fixed `dt = 0.5`. -/
theorem euler_update_law (dt max_years freq_progress : ℚ)
    (nnetwork rforest : Predictor) (sim_data : List Sample) (r : SimResult)
    (i : ℕ)
    (hok : forward_simulation dt max_years freq_progress nnetwork rforest
      sim_data = .ok r)
    (h1 : 1 ≤ i) (hi : i < n_steps_of dt max_years sim_data.length)
    (hjump : (sim_data.getD i default).jump = false) :
    r.B_for.getD i 0 =
      max (r.B_for.getD (i - 1) 0 +
        (rforest (r.B_for.getD (i - 1) 0) (r.D_for.getD (i - 1) 0)
          (sim_data.getD (i - 1) default).g).1 * dt) 0 ∧
    r.D_for.getD i 0 =
      max (r.D_for.getD (i - 1) 0 +
        (rforest (r.B_for.getD (i - 1) 0) (r.D_for.getD (i - 1) 0)
          (sim_data.getD (i - 1) default).g).2 * dt) 0 ∧
    r.B_nn.getD i 0 =
      max (r.B_nn.getD (i - 1) 0 +
        (nnetwork (r.B_nn.getD (i - 1) 0) (r.D_nn.getD (i - 1) 0)
          (sim_data.getD (i - 1) default).g).1 * dt) 0 ∧
    r.D_nn.getD i 0 =
      max (r.D_nn.getD (i - 1) 0 +
        (nnetwork (r.B_nn.getD (i - 1) 0) (r.D_nn.getD (i - 1) 0)
          (sim_data.getD (i - 1) default).g).2 * dt) 0 := by
  obtain ⟨j, rfl⟩ : ∃ j, i = j + 1 := ⟨i - 1, by omega⟩
  obtain ⟨e1, e2, e3, e4⟩ := result_arrays_getD hok hi
  obtain ⟨f1, f2, f3, f4⟩ := result_arrays_getD hok
    (show j < n_steps_of dt max_years sim_data.length by omega)
  simp only [Nat.add_sub_cancel, e1, e2, e3, e4, f1, f2, f3, f4]
  simp only [simState, hjump, Bool.false_eq_true, if_false]
  exact ⟨trivial, trivial, trivial, trivial⟩

/-- C2: at every step `i ∈ 1..N-1` whose ground-truth jump flag is true,
both simulated trajectories equal the ground-truth state `(B[i], D[i])`
exactly.  The conclusion holds for every pair of predictors and does not
mention them: the overriding value is independent of `nnetwork` and
`rforest`, which captures that neither predictor is queried at a jump step
(lines 41-46 `continue` before the `predict` calls of lines 49-50). -/
theorem jump_override (dt max_years freq_progress : ℚ)
    (nnetwork rforest : Predictor) (sim_data : List Sample) (r : SimResult)
    (i : ℕ)
    (hok : forward_simulation dt max_years freq_progress nnetwork rforest
      sim_data = .ok r)
    (h1 : 1 ≤ i) (hi : i < n_steps_of dt max_years sim_data.length)
    (hjump : (sim_data.getD i default).jump = true) :
    r.B_for.getD i 0 = (sim_data.getD i default).B ∧
    r.D_for.getD i 0 = (sim_data.getD i default).D ∧
    r.B_nn.getD i 0 = (sim_data.getD i default).B ∧
    r.D_nn.getD i 0 = (sim_data.getD i default).D := by
  obtain ⟨j, rfl⟩ : ∃ j, i = j + 1 := ⟨i - 1, by omega⟩
  obtain ⟨e1, e2, e3, e4⟩ := result_arrays_getD hok hi
  simp only [e1, e2, e3, e4, simState, hjump, if_true]
  exact ⟨trivial, trivial, trivial, trivial⟩

/-- C3: for every input whose ground-truth `B` and `D` samples are all
nonnegative and arbitrary predictor outputs, every element of the four
simulated arrays `B_for`, `D_for`, `B_nn`, `D_nn` is nonnegative: index 0
is the (nonnegative) initial truth, jump steps copy the (nonnegative)
truth, and all other steps are clamped by `np.maximum(·, 0.0)`. -/
theorem nonneg_invariant (dt max_years freq_progress : ℚ)
    (nnetwork rforest : Predictor) (sim_data : List Sample) (r : SimResult)
    (hdata : ∀ s ∈ sim_data, 0 ≤ s.B ∧ 0 ≤ s.D)
    (hok : forward_simulation dt max_years freq_progress nnetwork rforest
      sim_data = .ok r) :
    (∀ x ∈ r.B_for, 0 ≤ x) ∧ (∀ x ∈ r.D_for, 0 ≤ x) ∧
    (∀ x ∈ r.B_nn, 0 ≤ x) ∧ (∀ x ∈ r.D_nn, 0 ≤ x) := by
  obtain ⟨-, -, rfl⟩ := forward_simulation_ok_inv hok
  simp only [mkResult]
  refine ⟨?_, ?_, ?_, ?_⟩ <;>
  · intro x hx
    rw [List.mem_map] at hx
    obtain ⟨a, -, rfl⟩ := hx
    have h4 := simState_nonneg dt nnetwork rforest hdata a
    tauto

/-- C4: for a nonempty trajectory, positive time step and positive horizon
bound, the effective step count is
`N = floor(min(max_horizon, time_step·L) / time_step)` and every output
array — the time vector, the truncated ground truth `B_true`, `D_true`,
`g` and the four simulated trajectories — has exactly `N` entries. -/
theorem horizon_truncation_law (dt max_years freq_progress : ℚ)
    (nnetwork rforest : Predictor) (sim_data : List Sample) (r : SimResult)
    (hL : 1 ≤ sim_data.length) (hdt : 0 < dt) (hmy : 0 < max_years)
    (hok : forward_simulation dt max_years freq_progress nnetwork rforest
      sim_data = .ok r) :
    n_steps_of dt max_years sim_data.length =
      (Int.floor (min max_years (dt * sim_data.length) / dt)).toNat ∧
    r.t.length = n_steps_of dt max_years sim_data.length ∧
    r.B_true.length = n_steps_of dt max_years sim_data.length ∧
    r.D_true.length = n_steps_of dt max_years sim_data.length ∧
    r.g.length = n_steps_of dt max_years sim_data.length ∧
    r.B_for.length = n_steps_of dt max_years sim_data.length ∧
    r.D_for.length = n_steps_of dt max_years sim_data.length ∧
    r.B_nn.length = n_steps_of dt max_years sim_data.length ∧
    r.D_nn.length = n_steps_of dt max_years sim_data.length := by
  obtain ⟨-, -, rfl⟩ := forward_simulation_ok_inv hok
  have hle : n_steps_of dt max_years sim_data.length ≤ sim_data.length :=
    n_steps_le_length dt max_years sim_data.length hdt
  refine ⟨rfl, ?_, ?_, ?_, ?_, ?_, ?_, ?_, ?_⟩
  · simp only [mkResult, linspace, List.length_map, List.length_range]
  · simp only [mkResult, List.length_map, List.length_take]
    exact Nat.min_eq_left hle
  · simp only [mkResult, List.length_map, List.length_take]
    exact Nat.min_eq_left hle
  · simp only [mkResult, List.length_map, List.length_take]
    exact Nat.min_eq_left hle
  · simp only [mkResult, List.length_map, List.length_range]
  · simp only [mkResult, List.length_map, List.length_range]
  · simp only [mkResult, List.length_map, List.length_range]
  · simp only [mkResult, List.length_map, List.length_range]

theorem linspace_length (start stop : ℚ) (num : ℕ) :
    (linspace start stop num).length = num := by
  unfold linspace
  rw [List.length_map, List.length_range]

theorem linspace_getD {start stop : ℚ} {num i : ℕ} (h : i < num) :
    (linspace start stop num).getD i 0 =
      start + (i : ℚ) * (stop - start) / ((num : ℚ) - 1) :=
  getD_map_range _ h

/-- C5 counterexample: with `dt = 0.5`, `max_years = 100` and a two-sample
trajectory, `N = 2` and the emitted time vector is
`np.linspace(0, n_years, 2) = [0, 1]`: its last entry is `n_years = 1` and
its spacing is `1`, not `(N-1)·time_step = 0.5` as the claim states, so
the time vector is not `[0, 0.5]`. -/
theorem time_vector_counterexample :
    n_steps_of (1/2) 100 dataTwo.length = 2 ∧
    (forward_simulation (1/2) 100 (1/2) pZero pZero dataTwo).map
      SimResult.t = .ok [0, 1] ∧
    ¬ (([0, 1] : List ℚ) = [0, (2 - 1) * (1/2)]) := by
  have hns : n_steps_of (1/2) 100 dataTwo.length = 2 := by
    unfold n_steps_of n_years_of dataTwo
    norm_num
    decide
  have hsp : steps_progress_of (1/2) 2 = 1 := by
    unfold steps_progress_of
    norm_num
  refine ⟨hns, ?_, by norm_num⟩
  have hok : forward_simulation (1/2) 100 (1/2) pZero pZero dataTwo =
      .ok (mkResult (1/2) 100 (1/2) pZero pZero dataTwo) := by
    unfold forward_simulation
    rw [if_neg (by norm_num [dataTwo]), if_neg (by rw [hns, hsp]; omega)]
  have ht : (mkResult (1/2) 100 (1/2) pZero pZero dataTwo).t = [0, 1] := by
    show linspace 0 (n_years_of (1/2) 100 dataTwo.length)
      (n_steps_of (1/2) 100 dataTwo.length) = [0, 1]
    rw [hns]
    unfold n_years_of dataTwo linspace
    norm_num [List.range_succ]
  rw [hok]
  show Except.ok (mkResult (1/2) 100 (1/2) pZero pZero dataTwo).t =
    Except.ok ([0, 1] : List ℚ)
  rw [ht]

/-- C5 amended: for every run that completes with `N ≥ 2` steps, the time
vector `np.linspace(0, n_years, N)` has `N` entries, starts at `0`, is
uniformly spaced with consecutive difference `n_years/(N-1)`, and its last
entry is `n_years = min(max_horizon, time_step·L)` — i.e. it spans
`[0, n_years]`, not `[0, (N-1)·time_step]`. -/
theorem time_vector_law (dt max_years freq_progress : ℚ)
    (nnetwork rforest : Predictor) (sim_data : List Sample) (r : SimResult)
    (hok : forward_simulation dt max_years freq_progress nnetwork rforest
      sim_data = .ok r)
    (h2 : 2 ≤ n_steps_of dt max_years sim_data.length) :
    r.t.length = n_steps_of dt max_years sim_data.length ∧
    r.t.getD 0 0 = 0 ∧
    r.t.getD (n_steps_of dt max_years sim_data.length - 1) 0 =
      n_years_of dt max_years sim_data.length ∧
    ∀ i, i + 1 < n_steps_of dt max_years sim_data.length →
      r.t.getD (i + 1) 0 - r.t.getD i 0 =
        n_years_of dt max_years sim_data.length /
          ((n_steps_of dt max_years sim_data.length : ℚ) - 1) := by
  obtain ⟨-, -, rfl⟩ := forward_simulation_ok_inv hok
  have ht : (mkResult dt max_years freq_progress nnetwork rforest
      sim_data).t = linspace 0 (n_years_of dt max_years sim_data.length)
        (n_steps_of dt max_years sim_data.length) := rfl
  have hcast : ((n_steps_of dt max_years sim_data.length : ℚ) - 1) ≠ 0 := by
    have h2q : (2 : ℚ) ≤ (n_steps_of dt max_years sim_data.length : ℚ) := by
      exact_mod_cast h2
    linarith
  refine ⟨?_, ?_, ?_, ?_⟩
  · rw [ht, linspace_length]
  · rw [ht, linspace_getD (lt_of_lt_of_le (by norm_num) h2)]
    norm_num
  · rw [ht, linspace_getD (show n_steps_of dt max_years sim_data.length - 1 <
      n_steps_of dt max_years sim_data.length by omega)]
    rw [Nat.cast_sub (show 1 ≤ n_steps_of dt max_years sim_data.length by omega)]
    push_cast
    field_simp
  · intro i hi
    rw [ht, linspace_getD hi,
      linspace_getD (show i < n_steps_of dt max_years sim_data.length by omega)]
    push_cast
    ring

/-- C6 counterexample: on the empty trajectory the code fails on line 14
with `Bo = B_true[0]`, an `IndexError` — there is no `EmptyTrajectoryError`
anywhere in the repository — and the `Except.error` result models that the
plot/csv writes of lines 62-104 are never reached. -/
theorem empty_trajectory_counterexample :
    forward_simulation (1/2) 100 (1/2) pZero pZero [] =
      .error .indexError ∧
    PyErr.indexError ≠ PyErr.emptyTrajectoryError := by
  exact ⟨rfl, by decide⟩

/-- C6 amended: for every parameter choice and every pair of predictors,
running on an empty ground-truth trajectory fails with an (uncaught)
`IndexError` from `B_true[0]`, and no output is produced (the run aborts
before any of the persistence code of lines 62-104). -/
theorem empty_trajectory_error (dt max_years freq_progress : ℚ)
    (nnetwork rforest : Predictor) :
    forward_simulation dt max_years freq_progress nnetwork rforest [] =
      .error .indexError := rfl

theorem npCov_self_eq_zero {zs : List ℚ} {c : ℚ} (h : ∀ x ∈ zs, x = c) :
    npCov zs zs = 0 := by
  unfold npCov
  have hsum : ((zs.zip zs).map
      (fun p => (p.1 - npMean zs) * (p.2 - npMean zs))).sum = 0 := by
    apply List.sum_eq_zero
    intro x hx
    rw [List.mem_map] at hx
    obtain ⟨p, hp, rfl⟩ := hx
    obtain ⟨h1, h2⟩ := List.of_mem_zip hp
    have hne : zs ≠ [] := by rintro rfl; simp at h1
    have hlen : (zs.length : ℚ) ≠ 0 :=
      Nat.cast_ne_zero.mpr (fun h0 => hne (List.length_eq_zero.mp h0))
    have hmean : npMean zs = c := by
      unfold npMean
      rw [List.sum_eq_card_nsmul zs c h, nsmul_eq_mul, mul_comm,
        mul_div_assoc, div_self hlen, mul_one]
    rw [h _ h1, h _ h2, hmean, sub_self, mul_zero]
  rw [hsum, zero_div]

/-- C7: for equal-length series with at least one of them constant, the
Pearson coefficient `np.corrcoef(x, y)[0, 1]` is reported as NaN: the
constant series has zero variance, the variance product vanishes, and
numpy's division yields `0/0 = NaN` with only a runtime warning — the
embedded comparator is a total function, so no error is raised. -/
theorem constant_series_nan (xs ys : List ℚ) (hlen : xs.length = ys.length)
    (hconst : (∃ c, ∀ x ∈ xs, x = c) ∨ (∃ c, ∀ y ∈ ys, y = c)) :
    (corrcoef01 xs ys).isNan = true := by
  unfold corrcoef01 NpCorr.isNan
  rw [beq_iff_eq]
  rcases hconst with ⟨c, hc⟩ | ⟨c, hc⟩
  · rw [npCov_self_eq_zero hc, zero_mul]
  · rw [npCov_self_eq_zero hc, mul_zero]

/-- Witness for C7 at `xs = [1, 2]`, `ys = [5, 5]`. -/
theorem constant_series_nan_witness :
    (corrcoef01 [1, 2] [5, 5]).isNan = true :=
  constant_series_nan [1, 2] [5, 5] rfl (Or.inr ⟨5, by simp⟩)

/-- C8 counterexample: with `dt = 0.5`, `max_years = 100`, a two-sample
trajectory (so `N = 2 ≥ 2`) and `progress_frequency = 1/4 ∈ (0, 1)`,
the code computes `steps_progress = int(2 · 1/4) = 0` (line 19) and the
first loop iteration evaluates `step % 0` (line 37), raising
`ZeroDivisionError` — the loop does not complete, contradicting the claim
(which predicts notifications at multiples of `ceil(2 · 1/4) = 1`). -/
theorem progress_counterexample :
    (0 : ℚ) < 1/4 ∧ (1/4 : ℚ) < 1 ∧
    n_steps_of (1/2) 100 dataTwo.length = 2 ∧
    forward_simulation (1/2) 100 (1/4) pZero pZero dataTwo =
      .error .zeroDivisionError := by
  have hns : n_steps_of (1/2) 100 dataTwo.length = 2 := by
    unfold n_steps_of n_years_of dataTwo
    norm_num
    decide
  have hsp : steps_progress_of (1/4) 2 = 0 := by
    unfold steps_progress_of
    norm_num
  refine ⟨by norm_num, by norm_num, hns, ?_⟩
  unfold forward_simulation
  rw [if_neg (by norm_num [dataTwo]), if_pos (by rw [hns, hsp]; omega)]

/-- C8 amended: for every run with `N ≥ 2` and `0 < progress_frequency
< 1`, writing `sp = int(N · progress_frequency)` (floor, not ceiling):
if `sp = 0` — i.e. `N · progress_frequency < 1` — the loop raises a
modulo-by-zero at its first iteration and never completes; if `sp ≥ 1`
the run completes and the progress notification is emitted exactly at the
step indices in `1..N-1` that are multiples of `sp`. -/
theorem progress_checkpoints (dt max_years freq_progress : ℚ)
    (nnetwork rforest : Predictor) (sim_data : List Sample)
    (hdt : 0 < dt) (hf0 : 0 < freq_progress) (hf1 : freq_progress < 1)
    (hN : 2 ≤ n_steps_of dt max_years sim_data.length) :
    (steps_progress_of freq_progress
        (n_steps_of dt max_years sim_data.length) = 0 →
      forward_simulation dt max_years freq_progress nnetwork rforest
        sim_data = .error .zeroDivisionError) ∧
    (1 ≤ steps_progress_of freq_progress
        (n_steps_of dt max_years sim_data.length) →
      ∃ r, forward_simulation dt max_years freq_progress nnetwork rforest
          sim_data = .ok r ∧
        ∀ step, step ∈ r.progress_steps ↔
          (1 ≤ step ∧ step < n_steps_of dt max_years sim_data.length ∧
            steps_progress_of freq_progress
              (n_steps_of dt max_years sim_data.length) ∣ step)) := by
  have hLne : ¬ (sim_data.length = 0) := by
    intro h0
    have hle := n_steps_le_length dt max_years sim_data.length hdt
    rw [h0] at hle hN
    omega
  constructor
  · intro hsp
    unfold forward_simulation
    rw [if_neg hLne, if_pos ⟨hN, hsp⟩]
  · intro hsp
    refine ⟨mkResult dt max_years freq_progress nnetwork rforest sim_data,
      ?_, ?_⟩
    · have hcond : ¬ (2 ≤ n_steps_of dt max_years sim_data.length ∧
          steps_progress_of freq_progress
            (n_steps_of dt max_years sim_data.length) = 0) := by
        intro hc
        omega
      unfold forward_simulation
      rw [if_neg hLne, if_neg hcond]
    · intro step
      show step ∈ (List.range' 1
          (n_steps_of dt max_years sim_data.length - 1)).filter
            (fun s => s % steps_progress_of freq_progress
              (n_steps_of dt max_years sim_data.length) == 0) ↔ _
      rw [List.mem_filter, List.mem_range'_1, beq_iff_eq,
        ← Nat.dvd_iff_mod_eq_zero,
        Nat.add_sub_cancel' (show 1 ≤ n_steps_of dt max_years sim_data.length
          by omega)]
      tauto

theorem sortAsc_replicate (n : ℕ) (c : ℚ) :
    sortAsc (List.replicate n c) = List.replicate n c := by
  induction n with
  | zero => rfl
  | succ k ih =>
      rw [List.replicate_succ]
      show insertSorted c (sortAsc (List.replicate k c)) = _
      rw [ih]
      cases k with
      | zero => rfl
      | succ m =>
          rw [List.replicate_succ]
          show (if c ≤ c then _ else _) = _
          rw [if_pos le_rfl]

theorem getD_replicate {n i : ℕ} (c : ℚ) (h : i < n) :
    (List.replicate n c).getD i 0 = c := by
  rw [List.getD_eq_getElem?_getD, List.getElem?_replicate, if_pos h]
  rfl

theorem npMedian_replicate (n : ℕ) (hn : n ≠ 0) (c : ℚ) :
    npMedian (List.replicate n c) = c := by
  unfold npMedian
  rw [sortAsc_replicate]
  simp only [List.length_replicate]
  by_cases hpar : n % 2 = 1
  · rw [if_pos hpar, getD_replicate c (Nat.div_lt_self (by omega) one_lt_two)]
  · rw [if_neg hpar,
      getD_replicate c (by omega : n / 2 - 1 < n),
      getD_replicate c (Nat.div_lt_self (by omega) one_lt_two)]
    ring

/-- C9: the loader computes the 26-step block medians into `X_sim`
(lines 142-143) and the strided jump flags (line 144) but then discards
`X_sim`: line 147 column-stacks the raw, un-pooled series with the pooled
flags.  On the smallest well-formed input (one 26-step block) this raises
a `ValueError` (26 raw rows vs 1 jump row), so `load` never returns the
block-reduced trajectory; the intended result — the spec-modelled
`pooled_trajectory` — is the single sample of per-block medians aligned
with the block's jump flag. -/
theorem preprocess_discards_pooled_blocks :
    preprocess_fwd_sim_data (List.replicate 26 1) (List.replicate 26 2)
      (List.replicate 26 3) (some (List.replicate 26 false)) =
      .error .valueError ∧
    pooled_trajectory (List.replicate 26 1) (List.replicate 26 2)
      (List.replicate 26 3) (some (List.replicate 26 false)) =
      [⟨1, 2, 3, false⟩] := by
  constructor
  · rfl
  · simp only [pooled_trajectory, every26, Option.getD_some,
      List.length_replicate]
    norm_num [List.range_succ, List.range_zero, block26,
      List.take_replicate, npMedian_replicate, List.getD]

/-- C10: the integrator is deterministic.  Runs with extensionally equal
(pure) predictors and identical inputs produce identical outputs: the
state recursion, the if-branching, the time vector and the correlations
are all pure functions of the inputs, and no other source of variation
exists in the loop. -/
theorem deterministic_runs (dt max_years freq_progress : ℚ)
    (nn1 rf1 nn2 rf2 : Predictor) (sim_data : List Sample)
    (hnn : ∀ b d g, nn1 b d g = nn2 b d g)
    (hrf : ∀ b d g, rf1 b d g = rf2 b d g) :
    forward_simulation dt max_years freq_progress nn1 rf1 sim_data =
      forward_simulation dt max_years freq_progress nn2 rf2 sim_data := by
  have hsim : ∀ i, simState dt nn1 rf1 sim_data i =
      simState dt nn2 rf2 sim_data i := by
    intro i
    induction i with
    | zero => rfl
    | succ n ih => simp only [simState, ih, hnn, hrf]
  have hmk : mkResult dt max_years freq_progress nn1 rf1 sim_data =
      mkResult dt max_years freq_progress nn2 rf2 sim_data := by
    simp only [mkResult, hsim]
  simp only [forward_simulation, hmk]

/-- Witness for C10: two runs with the two (extensionally equal) spellings
of the zero predictor agree on `dataTwo`. -/
theorem deterministic_runs_witness :
    forward_simulation (1/2) 100 (1/2) pZero pZero dataTwo =
      forward_simulation (1/2) 100 (1/2) pZeroAlt pZeroAlt dataTwo :=
  deterministic_runs (1/2) 100 (1/2) pZero pZero pZeroAlt pZeroAlt dataTwo
    (fun b d g => by simp [pZero, pZeroAlt])
    (fun b d g => by simp [pZero, pZeroAlt])

theorem n_steps_dataTwo : n_steps_of (1/2) 100 dataTwo.length = 2 := by
  unfold n_steps_of n_years_of dataTwo
  norm_num
  decide

theorem n_steps_dataJump : n_steps_of (1/2) 100 dataJump.length = 2 := by
  unfold n_steps_of n_years_of dataJump
  norm_num
  decide

theorem run_dataTwo_ok :
    forward_simulation (1/2) 100 (1/2) pZero pZero dataTwo =
      .ok (mkResult (1/2) 100 (1/2) pZero pZero dataTwo) := by
  have hsp : steps_progress_of (1/2) 2 = 1 := by
    unfold steps_progress_of
    norm_num
  unfold forward_simulation
  rw [if_neg (by norm_num [dataTwo]),
    if_neg (by rw [n_steps_dataTwo, hsp]; omega)]

theorem run_dataJump_ok :
    forward_simulation (1/2) 100 (1/2) pZero pZero dataJump =
      .ok (mkResult (1/2) 100 (1/2) pZero pZero dataJump) := by
  have hsp : steps_progress_of (1/2) 2 = 1 := by
    unfold steps_progress_of
    norm_num
  unfold forward_simulation
  rw [if_neg (by norm_num [dataJump]),
    if_neg (by rw [n_steps_dataJump, hsp]; omega)]

/-- Witness for C1 at step `i = 1` of the concrete run on `dataTwo`. -/
theorem euler_update_law_witness :
    (forward_simulation (1/2) 100 (1/2) pZero pZero dataTwo =
      .ok (mkResult (1/2) 100 (1/2) pZero pZero dataTwo)) ∧
    1 < n_steps_of (1/2) 100 dataTwo.length ∧
    (dataTwo.getD 1 default).jump = false ∧
    ((mkResult (1/2) 100 (1/2) pZero pZero dataTwo).B_for.getD 1 0 =
      max ((mkResult (1/2) 100 (1/2) pZero pZero dataTwo).B_for.getD 0 0 +
        (pZero ((mkResult (1/2) 100 (1/2) pZero pZero dataTwo).B_for.getD 0 0)
          ((mkResult (1/2) 100 (1/2) pZero pZero dataTwo).D_for.getD 0 0)
          (dataTwo.getD 0 default).g).1 * (1/2)) 0 ∧
    (mkResult (1/2) 100 (1/2) pZero pZero dataTwo).D_for.getD 1 0 =
      max ((mkResult (1/2) 100 (1/2) pZero pZero dataTwo).D_for.getD 0 0 +
        (pZero ((mkResult (1/2) 100 (1/2) pZero pZero dataTwo).B_for.getD 0 0)
          ((mkResult (1/2) 100 (1/2) pZero pZero dataTwo).D_for.getD 0 0)
          (dataTwo.getD 0 default).g).2 * (1/2)) 0 ∧
    (mkResult (1/2) 100 (1/2) pZero pZero dataTwo).B_nn.getD 1 0 =
      max ((mkResult (1/2) 100 (1/2) pZero pZero dataTwo).B_nn.getD 0 0 +
        (pZero ((mkResult (1/2) 100 (1/2) pZero pZero dataTwo).B_nn.getD 0 0)
          ((mkResult (1/2) 100 (1/2) pZero pZero dataTwo).D_nn.getD 0 0)
          (dataTwo.getD 0 default).g).1 * (1/2)) 0 ∧
    (mkResult (1/2) 100 (1/2) pZero pZero dataTwo).D_nn.getD 1 0 =
      max ((mkResult (1/2) 100 (1/2) pZero pZero dataTwo).D_nn.getD 0 0 +
        (pZero ((mkResult (1/2) 100 (1/2) pZero pZero dataTwo).B_nn.getD 0 0)
          ((mkResult (1/2) 100 (1/2) pZero pZero dataTwo).D_nn.getD 0 0)
          (dataTwo.getD 0 default).g).2 * (1/2)) 0) := by
  have hok := run_dataTwo_ok
  have hi : 1 < n_steps_of (1/2) 100 dataTwo.length := by
    rw [n_steps_dataTwo]
    omega
  exact ⟨hok, hi, rfl,
    euler_update_law (1/2) 100 (1/2) pZero pZero dataTwo _ 1 hok le_rfl hi rfl⟩

/-- Witness for C2 at the jump step `i = 1` of the concrete run on
`dataJump`. -/
theorem jump_override_witness :
    (forward_simulation (1/2) 100 (1/2) pZero pZero dataJump =
      .ok (mkResult (1/2) 100 (1/2) pZero pZero dataJump)) ∧
    1 < n_steps_of (1/2) 100 dataJump.length ∧
    (dataJump.getD 1 default).jump = true ∧
    ((mkResult (1/2) 100 (1/2) pZero pZero dataJump).B_for.getD 1 0 =
      (dataJump.getD 1 default).B ∧
    (mkResult (1/2) 100 (1/2) pZero pZero dataJump).D_for.getD 1 0 =
      (dataJump.getD 1 default).D ∧
    (mkResult (1/2) 100 (1/2) pZero pZero dataJump).B_nn.getD 1 0 =
      (dataJump.getD 1 default).B ∧
    (mkResult (1/2) 100 (1/2) pZero pZero dataJump).D_nn.getD 1 0 =
      (dataJump.getD 1 default).D) := by
  have hok := run_dataJump_ok
  have hi : 1 < n_steps_of (1/2) 100 dataJump.length := by
    rw [n_steps_dataJump]
    omega
  exact ⟨hok, hi, rfl,
    jump_override (1/2) 100 (1/2) pZero pZero dataJump _ 1 hok le_rfl hi rfl⟩

/-- Witness for C3 on the concrete run on `dataTwo`. -/
theorem nonneg_invariant_witness :
    (∀ s ∈ dataTwo, 0 ≤ s.B ∧ 0 ≤ s.D) ∧
    (forward_simulation (1/2) 100 (1/2) pZero pZero dataTwo =
      .ok (mkResult (1/2) 100 (1/2) pZero pZero dataTwo)) ∧
    ((∀ x ∈ (mkResult (1/2) 100 (1/2) pZero pZero dataTwo).B_for, 0 ≤ x) ∧
    (∀ x ∈ (mkResult (1/2) 100 (1/2) pZero pZero dataTwo).D_for, 0 ≤ x) ∧
    (∀ x ∈ (mkResult (1/2) 100 (1/2) pZero pZero dataTwo).B_nn, 0 ≤ x) ∧
    (∀ x ∈ (mkResult (1/2) 100 (1/2) pZero pZero dataTwo).D_nn, 0 ≤ x)) := by
  have hdata : ∀ s ∈ dataTwo, 0 ≤ s.B ∧ 0 ≤ s.D := by
    intro s hs
    simp only [dataTwo, List.mem_cons, List.not_mem_nil, or_false] at hs
    rcases hs with rfl | rfl <;> norm_num
  exact ⟨hdata, run_dataTwo_ok,
    nonneg_invariant (1/2) 100 (1/2) pZero pZero dataTwo _ hdata
      run_dataTwo_ok⟩

/-- Witness for C4 on the concrete run on `dataTwo`. -/
theorem horizon_truncation_law_witness :
    1 ≤ dataTwo.length ∧ (0 : ℚ) < 1/2 ∧ (0 : ℚ) < 100 ∧
    (forward_simulation (1/2) 100 (1/2) pZero pZero dataTwo =
      .ok (mkResult (1/2) 100 (1/2) pZero pZero dataTwo)) ∧
    (n_steps_of (1/2) 100 dataTwo.length =
      (Int.floor (min 100 ((1/2) * (dataTwo.length : ℚ)) / (1/2))).toNat ∧
    (mkResult (1/2) 100 (1/2) pZero pZero dataTwo).t.length =
      n_steps_of (1/2) 100 dataTwo.length ∧
    (mkResult (1/2) 100 (1/2) pZero pZero dataTwo).B_true.length =
      n_steps_of (1/2) 100 dataTwo.length ∧
    (mkResult (1/2) 100 (1/2) pZero pZero dataTwo).D_true.length =
      n_steps_of (1/2) 100 dataTwo.length ∧
    (mkResult (1/2) 100 (1/2) pZero pZero dataTwo).g.length =
      n_steps_of (1/2) 100 dataTwo.length ∧
    (mkResult (1/2) 100 (1/2) pZero pZero dataTwo).B_for.length =
      n_steps_of (1/2) 100 dataTwo.length ∧
    (mkResult (1/2) 100 (1/2) pZero pZero dataTwo).D_for.length =
      n_steps_of (1/2) 100 dataTwo.length ∧
    (mkResult (1/2) 100 (1/2) pZero pZero dataTwo).B_nn.length =
      n_steps_of (1/2) 100 dataTwo.length ∧
    (mkResult (1/2) 100 (1/2) pZero pZero dataTwo).D_nn.length =
      n_steps_of (1/2) 100 dataTwo.length) :=
  ⟨by norm_num [dataTwo], by norm_num, by norm_num, run_dataTwo_ok,
    horizon_truncation_law (1/2) 100 (1/2) pZero pZero dataTwo _
      (by norm_num [dataTwo]) (by norm_num) (by norm_num) run_dataTwo_ok⟩

/-- Witness for the amended C5 on the concrete run on `dataTwo`. -/
theorem time_vector_law_witness :
    (forward_simulation (1/2) 100 (1/2) pZero pZero dataTwo =
      .ok (mkResult (1/2) 100 (1/2) pZero pZero dataTwo)) ∧
    2 ≤ n_steps_of (1/2) 100 dataTwo.length ∧
    ((mkResult (1/2) 100 (1/2) pZero pZero dataTwo).t.length =
      n_steps_of (1/2) 100 dataTwo.length ∧
    (mkResult (1/2) 100 (1/2) pZero pZero dataTwo).t.getD 0 0 = 0 ∧
    (mkResult (1/2) 100 (1/2) pZero pZero dataTwo).t.getD
        (n_steps_of (1/2) 100 dataTwo.length - 1) 0 =
      n_years_of (1/2) 100 dataTwo.length ∧
    ∀ i, i + 1 < n_steps_of (1/2) 100 dataTwo.length →
      (mkResult (1/2) 100 (1/2) pZero pZero dataTwo).t.getD (i + 1) 0 -
          (mkResult (1/2) 100 (1/2) pZero pZero dataTwo).t.getD i 0 =
        n_years_of (1/2) 100 dataTwo.length /
          ((n_steps_of (1/2) 100 dataTwo.length : ℚ) - 1)) := by
  have h2 : 2 ≤ n_steps_of (1/2) 100 dataTwo.length := by
    rw [n_steps_dataTwo]
  exact ⟨run_dataTwo_ok, h2,
    time_vector_law (1/2) 100 (1/2) pZero pZero dataTwo _ run_dataTwo_ok h2⟩

/-- Witness for the amended C8 on the concrete run on `dataTwo` with
`freq_progress = 1/2` (so `sp = 1`). -/
theorem progress_checkpoints_witness :
    (0 : ℚ) < 1/2 ∧ (1/2 : ℚ) < 1 ∧
    2 ≤ n_steps_of (1/2) 100 dataTwo.length ∧
    ((steps_progress_of (1/2) (n_steps_of (1/2) 100 dataTwo.length) = 0 →
      forward_simulation (1/2) 100 (1/2) pZero pZero dataTwo =
        .error .zeroDivisionError) ∧
    (1 ≤ steps_progress_of (1/2) (n_steps_of (1/2) 100 dataTwo.length) →
      ∃ r, forward_simulation (1/2) 100 (1/2) pZero pZero dataTwo =
          .ok r ∧
        ∀ step, step ∈ r.progress_steps ↔
          (1 ≤ step ∧ step < n_steps_of (1/2) 100 dataTwo.length ∧
            steps_progress_of (1/2)
              (n_steps_of (1/2) 100 dataTwo.length) ∣ step))) := by
  have h2 : 2 ≤ n_steps_of (1/2) 100 dataTwo.length := by
    rw [n_steps_dataTwo]
  exact ⟨by norm_num, by norm_num, h2,
    progress_checkpoints (1/2) 100 (1/2) pZero pZero dataTwo
      (by norm_num) (by norm_num) (by norm_num) h2⟩
